import Mathlib

/-!
Shallow embedding of src/datamapping.py: a schema-driven CSV mapping,
validation and export tool.

The program keeps a list of schema fields (`FieldSpec`), a user-built
`mappings` dictionary from each field's `target_field` to either a CSV
column name or the sentinel string `"-- Sin mapear --"` (`UNMAPPED`),
a validation pass producing error/warning message lists, and an export
pass building a pandas DataFrame column by column.

Cells are modelled as `Option String`: `some s` is a concrete value,
`none` is pandas' missing marker NaN.  The export loop's pandas
semantics (assignment to an initially empty `pd.DataFrame()`) is
modelled faithfully:
  * assigning a scalar broadcasts it over the current (possibly empty)
    row index;
  * assigning a Series when the frame's index is empty and the series
    is nonempty adopts the series' index and refills every existing
    column with NaN (pandas `DataFrame._ensure_valid_index`);
  * assigning a Series otherwise aligns it to the current index
    (truncation / NaN padding).
-/

namespace DataMapping

/-- The sentinel shown as the first selectbox option (line 135 of the
source): selecting it leaves the field unmapped. -/
def UNMAPPED : String := "\x2d\x2d Sin mapear \x2d\x2d"

/-- One schema field, as read from the contract JSON: `target_field`,
`type`, `required`, `description`, optional `values` enumeration. -/
structure FieldSpec where
  target_field : String
  type : String
  required : Bool
  description : String
  values : List String
deriving DecidableEq, Repr

/-- The required-field partition (source line 144). -/
def required_fields (fields : List FieldSpec) : List FieldSpec :=
  fields.filter (fun f => f.required)

/-- The optional-field partition (source line 145). -/
def optional_fields (fields : List FieldSpec) : List FieldSpec :=
  fields.filter (fun f => !f.required)

/-- The `mappings` dictionary: association list from `target_field` to
the selected CSV column name (or `UNMAPPED`). -/
abbrev Mapping := List (String × String)

/-- Lookup with default in a string-keyed association list (Python
`d.get(k, dflt)`). -/
def lookupD {β : Type} (l : List (String × β)) (k : String) (dflt : β) : β :=
  match l.find? (fun p => p.1 = k) with
  | some p => p.2
  | none => dflt

/-- Keyed update in a string-keyed association list (Python
`d[k] = v`, pandas `df[k] = ...`): replace the entry in place if the
key exists, else append it (insertion order). -/
def updateEntry {β : Type} (l : List (String × β)) (k : String) (v : β) :
    List (String × β) :=
  if l.any (fun p => p.1 = k) then
    l.map (fun p => if p.1 = k then (k, v) else p)
  else l ++ [(k, v)]

/-- Python `mappings.get(key, "-- Sin mapear --")` (source lines 228, 236,
289). -/
def mapLookup (m : Mapping) (k : String) : String :=
  lookupD m k UNMAPPED

/-- Python `mappings[key] = value` (source lines 176 and 203). -/
def dictInsert (m : Mapping) (k v : String) : Mapping :=
  updateEntry m k v

/-- Building the `mappings` dict by iterating the given field order and
recording the user's selection per `target_field` (source lines 159-203:
`mappings[field['target_field']] = selected_column`).  `sel` is the fixed
set of user selections, keyed — like the widgets — by `target_field`. -/
def build_mappings (order : List FieldSpec) (sel : String → String) : Mapping :=
  order.foldl (fun m f => dictInsert m f.target_field (sel f.target_field)) []

/-- The program's actual construction order: required fields first, then
optional fields (source lines 161 and 188). -/
def mappings (fields : List FieldSpec) (sel : String → String) : Mapping :=
  build_mappings (required_fields fields ++ optional_fields fields) sel

/-- The error message appended for an unmapped required field
(source line 231). -/
def reqError (name : String) : String :=
  "❌ **" ++ name ++ "** (requerido) no está mapeado"

/-- The warning message appended for an unmapped optional field
(source line 239). -/
def optWarning (name : String) : String :=
  "⚠️ **" ++ name ++ "** (opcional) no está mapeado"

/-- Source lines 226-231: one error per required field whose mapping
value is the sentinel. -/
def validation_errors (fields : List FieldSpec) (m : Mapping) : List String :=
  (required_fields fields).foldl
    (fun errs f =>
      if mapLookup m f.target_field = UNMAPPED then errs ++ [reqError f.target_field]
      else errs) []

/-- Source lines 234-239: one warning per optional field whose mapping
value is the sentinel. -/
def validation_warnings (fields : List FieldSpec) (m : Mapping) : List String :=
  (optional_fields fields).foldl
    (fun warns f =>
      if mapLookup m f.target_field = UNMAPPED then warns ++ [optWarning f.target_field]
      else warns) []

/-- Source lines 242-250: `mapping_valid` is `False` when the error list
is nonempty, `True` otherwise. -/
def mapping_valid (fields : List FieldSpec) (m : Mapping) : Bool :=
  (validation_errors fields m).isEmpty

/-- A table cell: `some s` is a value, `none` is pandas NaN. -/
abbrev Cell := Option String

/-- The uploaded CSV as read by `pd.read_csv` (source line 100): named
columns over a default integer row index of length `nrows`. -/
structure SourceTable where
  columns : List (String × List Cell)
  nrows : Nat
deriving DecidableEq, Repr

/-- Well-formedness of the upload: every column has exactly `nrows`
values (what `pd.read_csv` guarantees). -/
def SourceTable.wellformed (t : SourceTable) : Prop :=
  ∀ c ∈ t.columns, c.2.length = t.nrows

instance (t : SourceTable) : Decidable t.wellformed := by
  unfold SourceTable.wellformed
  infer_instance

/-- Column lookup in a name-keyed column list (first match; `[]` stands
for the out-of-dictionary case, which the widget choices make
unreachable). -/
def lookupCol (cols : List (String × List Cell)) (name : String) : List Cell :=
  lookupD cols name []

/-- `df_source[name]`: the data of the column called `name`. -/
def SourceTable.getCol (t : SourceTable) (name : String) : List Cell :=
  lookupCol t.columns name

/-- The column names of the upload, in table order. -/
def SourceTable.colNames (t : SourceTable) : List String :=
  t.columns.map (fun c => c.1)

/-- Source line 135: the selectbox options are the sentinel followed by
the CSV's column names. -/
def csv_columns (t : SourceTable) : List String :=
  UNMAPPED :: t.colNames

/-- The DataFrame being built by the export loop: a row index of length
`nrows` and named columns in insertion order. -/
structure DataFrame where
  nrows : Nat
  cols : List (String × List Cell)
deriving DecidableEq, Repr

/-- `df[name]` on the transformed frame. -/
def DataFrame.getCol (df : DataFrame) (name : String) : List Cell :=
  lookupCol df.cols name

/-- The transformed frame's column names in order. -/
def DataFrame.colNames (df : DataFrame) : List String :=
  df.cols.map (fun c => c.1)

/-- Column-dictionary update: replace the value at an existing key, else
append a new column at the end (pandas `df[name] = ...`). -/
def setEntry (cols : List (String × List Cell)) (name : String) (v : List Cell) :
    List (String × List Cell) :=
  updateEntry cols name v

/-- Reindexing a default-indexed series of values to a row index of
length `n`: keep the first `n` values, pad with NaN. -/
def alignTo (n : Nat) (v : List Cell) : List Cell :=
  v.take n ++ List.replicate (n - v.length) (none : Cell)

/-- `df[name] = series` (source line 293).  When the frame's index is
empty and the series nonempty, pandas adopts the series' index and
refills every existing column with NaN (`_ensure_valid_index`);
otherwise the series is aligned to the current index. -/
def DataFrame.setSeries (df : DataFrame) (name : String) (v : List Cell) : DataFrame :=
  if df.nrows = 0 ∧ v.length ≠ 0 then
    ⟨v.length,
      setEntry (df.cols.map (fun p => (p.1, List.replicate v.length (none : Cell)))) name v⟩
  else
    ⟨df.nrows, setEntry df.cols name (alignTo df.nrows v)⟩

/-- `df[name] = scalar` (source line 296): broadcast the scalar over the
current row index. -/
def DataFrame.setScalar (df : DataFrame) (name : String) (s : String) : DataFrame :=
  ⟨df.nrows, setEntry df.cols name (List.replicate df.nrows (some s))⟩

/-- One iteration of the export loop (source lines 287-296). -/
def applyField (m : Mapping) (src : SourceTable) (df : DataFrame) (f : FieldSpec) :
    DataFrame :=
  let source_column := mapLookup m f.target_field
  if source_column ≠ UNMAPPED then df.setSeries f.target_field (src.getCol source_column)
  else df.setScalar f.target_field ("")

/-- Source lines 284-296: start from `pd.DataFrame()` and process every
schema field in declaration order. -/
def df_transformed (fields : List FieldSpec) (m : Mapping) (src : SourceTable) :
    DataFrame :=
  fields.foldl (applyField m src) ⟨0, []⟩

/-- Source lines 277 and 324-326: the export section only runs when
`mapping_valid` is true; otherwise no output table is produced. -/
def exportStep (fields : List FieldSpec) (m : Mapping) (src : SourceTable) :
    Option DataFrame :=
  if mapping_valid fields m then some (df_transformed fields m src) else none

/-- An in-memory schema, as decoded from a contract JSON file
(source lines 49-55). -/
structure Schema where
  contract_name : String
  fields : List FieldSpec
deriving DecidableEq, Repr

/-- One file of the `contratos` directory: its name and its parse
outcome — `none` models content on which `json.load` raises. -/
structure SchemaFile where
  name : String
  parsed : Option Schema
deriving DecidableEq, Repr

/-- The placeholder heading the schema selectbox (source line 38). -/
def placeholderOption : String := "\x2d\x2dSelecciones esquema\x2d\x2d"

/-- Source line 38: the selectbox options are the placeholder followed
by every discovered file name. -/
def schema_names (files : List SchemaFile) : List String :=
  placeholderOption :: files.map (fun f => f.name)

/-- Outcome of one run of the schema-selection section (source lines
31-49): the rendered listing, the schema loaded this run (if any), and
whether the run aborted with an uncaught parse exception. -/
structure SchemaSectionResult where
  listed : List String
  loaded : Option Schema
  crashed : Bool
deriving DecidableEq, Repr

/-- One run of the schema-selection section: the directory listing is
rendered first (line 38); only then is the selected file opened and
parsed (lines 46-49), where a malformed file raises out of `json.load`
and aborts just this run. -/
def schemaSection (files : List SchemaFile) (selected : String) : SchemaSectionResult :=
  if selected = placeholderOption then ⟨schema_names files, none, false⟩
  else
    match files.find? (fun f => f.name = selected) with
    | some f =>
      match f.parsed with
      | some s => ⟨schema_names files, some s, false⟩
      | none => ⟨schema_names files, none, true⟩
    | none => ⟨schema_names files, none, true⟩

/-! Section: Association-list laws -/

theorem find?_map_update_ne {β : Type} (l : List (String × β)) (k : String) (v : β)
    (t : String) (h : t ≠ k) :
    (l.map (fun p => if p.1 = k then (k, v) else p)).find? (fun p => p.1 = t)
      = l.find? (fun p => p.1 = t) := by
  induction l with
  | nil => rfl
  | cons p l ih =>
    rw [List.map_cons]
    by_cases hp : p.1 = k
    · rw [if_pos hp]
      rw [List.find?_cons_of_neg _ (by simp [Ne.symm h]),
        List.find?_cons_of_neg _ (by simp [hp, Ne.symm h])]
      exact ih
    · rw [if_neg hp]
      by_cases hn : p.1 = t
      · rw [List.find?_cons_of_pos _ (by simp [hn]), List.find?_cons_of_pos _ (by simp [hn])]
      · rw [List.find?_cons_of_neg _ (by simp [hn]), List.find?_cons_of_neg _ (by simp [hn])]
        exact ih

theorem find?_map_update_self {β : Type} (l : List (String × β)) (k : String) (v : β)
    (hany : l.any (fun p => p.1 = k) = true) :
    (l.map (fun p => if p.1 = k then (k, v) else p)).find? (fun p => p.1 = k)
      = some (k, v) := by
  induction l with
  | nil => simp at hany
  | cons p l ih =>
    rw [List.map_cons]
    by_cases hp : p.1 = k
    · rw [if_pos hp]
      rw [List.find?_cons_of_pos _ (by simp)]
    · rw [if_neg hp]
      rw [List.find?_cons_of_neg _ (by simp [hp])]
      rw [List.any_cons] at hany
      simp only [hp, decide_eq_true_eq, Bool.false_or] at hany
      exact ih (by simpa using hany)

theorem lookupD_updateEntry {β : Type} (l : List (String × β)) (k : String) (v : β)
    (t : String) (dflt : β) :
    lookupD (updateEntry l k v) t dflt = if t = k then v else lookupD l t dflt := by
  unfold updateEntry
  by_cases hany : l.any (fun p => p.1 = k) = true
  · rw [if_pos hany]
    by_cases htk : t = k
    · subst htk
      unfold lookupD
      rw [find?_map_update_self l t v hany, if_pos rfl]
    · unfold lookupD
      rw [find?_map_update_ne l k v t htk, if_neg htk]
  · rw [if_neg hany]
    by_cases htk : t = k
    · subst htk
      unfold lookupD
      have hnone : l.find? (fun p => p.1 = t) = none := by
        rw [List.find?_eq_none]
        intro x hx
        simp only [decide_eq_true_eq]
        intro hxk
        exact hany (List.any_eq_true.mpr ⟨x, hx, by simp [hxk]⟩)
      rw [List.find?_append, hnone, Option.none_or]
      rw [List.find?_cons_of_pos _ (by simp), if_pos rfl]
    · unfold lookupD
      have hsingle : ([(k, v)] : List (String × β)).find? (fun p => p.1 = t) = none := by
        rw [List.find?_eq_none]
        intro x hx
        simp only [List.mem_singleton] at hx
        subst hx
        simp [Ne.symm htk]
      rw [List.find?_append, hsingle, Option.or_none, if_neg htk]

theorem updateEntry_fst_of_not_mem {β : Type} (l : List (String × β)) (k : String) (v : β)
    (h : k ∉ l.map (fun p => p.1)) :
    (updateEntry l k v).map (fun p => p.1) = l.map (fun p => p.1) ++ [k] := by
  unfold updateEntry
  have hany : l.any (fun p => p.1 = k) = false := by
    rw [List.any_eq_false]
    intro x hx
    simp only [decide_eq_true_eq]
    intro hxk
    exact h (List.mem_map.mpr ⟨x, hx, hxk⟩)
  rw [if_neg (by simp [hany])]
  simp

theorem map_update_fst {β : Type} (l : List (String × β)) (k : String) (v : β) :
    (l.map (fun p => if p.1 = k then (k, v) else p)).map (fun p => p.1)
      = l.map (fun p => p.1) := by
  rw [List.map_map]
  apply List.map_congr_left
  intro p _
  by_cases hp : p.1 = k
  · simp [hp]
  · simp [hp]

theorem mapLookup_dictInsert (m : Mapping) (k v t : String) :
    mapLookup (dictInsert m k v) t = if t = k then v else mapLookup m t :=
  lookupD_updateEntry m k v t UNMAPPED

theorem lookupCol_setEntry (cols : List (String × List Cell)) (name : String)
    (v : List Cell) (t : String) :
    lookupCol (setEntry cols name v) t = if t = name then v else lookupCol cols t :=
  lookupD_updateEntry cols name v t []

/-! Section: Characterizing the validation pass -/

theorem foldl_append_of_filter {α β : Type} (p : α → Prop) [DecidablePred p]
    (g : α → β) (l : List α) (acc : List β) :
    l.foldl (fun out f => if p f then out ++ [g f] else out) acc
      = acc ++ (l.filter (fun f => p f)).map g := by
  induction l generalizing acc with
  | nil => simp
  | cons a l ih =>
    rw [List.foldl_cons]
    by_cases h : p a
    · rw [if_pos h, ih, List.filter_cons_of_pos (by simp [h]), List.map_cons,
        List.append_assoc, List.singleton_append]
    · rw [if_neg h, ih, List.filter_cons_of_neg (by simp [h])]

theorem validation_errors_eq (fields : List FieldSpec) (m : Mapping) :
    validation_errors fields m
      = ((required_fields fields).filter
            (fun f => mapLookup m f.target_field = UNMAPPED)).map
          (fun f => reqError f.target_field) := by
  unfold validation_errors
  rw [foldl_append_of_filter (fun f => mapLookup m f.target_field = UNMAPPED)
    (fun f => reqError f.target_field) (required_fields fields) [], List.nil_append]

theorem validation_warnings_eq (fields : List FieldSpec) (m : Mapping) :
    validation_warnings fields m
      = ((optional_fields fields).filter
            (fun f => mapLookup m f.target_field = UNMAPPED)).map
          (fun f => optWarning f.target_field) := by
  unfold validation_warnings
  rw [foldl_append_of_filter (fun f => mapLookup m f.target_field = UNMAPPED)
    (fun f => optWarning f.target_field) (optional_fields fields) [], List.nil_append]

theorem mapping_valid_iff (fields : List FieldSpec) (m : Mapping) :
    mapping_valid fields m = true ↔ validation_errors fields m = [] := by
  simp [mapping_valid, List.isEmpty_iff]

/-! Section: Characterizing the mapping build -/

theorem mapLookup_build_mappings_go (order : List FieldSpec) (sel : String → String)
    (m : Mapping) (t : String) :
    mapLookup (order.foldl (fun m f => dictInsert m f.target_field (sel f.target_field)) m) t
      = if t ∈ order.map (fun f => f.target_field) then sel t else mapLookup m t := by
  induction order generalizing m with
  | nil => simp
  | cons f rest ih =>
    rw [List.foldl_cons, ih, List.map_cons]
    by_cases hrest : t ∈ rest.map (fun f => f.target_field)
    · rw [if_pos hrest, if_pos (List.mem_cons_of_mem _ hrest)]
    · rw [if_neg hrest, mapLookup_dictInsert]
      by_cases htf : t = f.target_field
      · rw [if_pos htf, if_pos (by rw [htf]; exact List.mem_cons_self _ _), htf]
      · rw [if_neg htf, if_neg (by simp [htf, hrest])]

theorem mapLookup_build_mappings (order : List FieldSpec) (sel : String → String)
    (t : String) :
    mapLookup (build_mappings order sel) t
      = if t ∈ order.map (fun f => f.target_field) then sel t else UNMAPPED := by
  unfold build_mappings
  rw [mapLookup_build_mappings_go]
  rfl

/-! Section: Export frame machinery -/

theorem getCol_length_of_mem (src : SourceTable) (hw : src.wellformed) (n : String)
    (hn : n ∈ src.colNames) : (src.getCol n).length = src.nrows := by
  unfold SourceTable.getCol lookupCol lookupD
  split
  · next p heq => exact hw p (List.mem_of_find?_eq_some heq)
  · next heq =>
    exfalso
    rw [List.find?_eq_none] at heq
    obtain ⟨c, hc, hcn⟩ := List.mem_map.mp hn
    exact heq c hc (by simp [hcn])

theorem getCol_length_cases (src : SourceTable) (hw : src.wellformed) (n : String) :
    (src.getCol n).length = 0 ∨ (src.getCol n).length = src.nrows := by
  unfold SourceTable.getCol lookupCol lookupD
  split
  · next p heq => exact Or.inr (hw p (List.mem_of_find?_eq_some heq))
  · next _ => exact Or.inl rfl

theorem applyField_unmapped (m : Mapping) (src : SourceTable) (df : DataFrame)
    (f : FieldSpec) (h : mapLookup m f.target_field = UNMAPPED) :
    applyField m src df f = df.setScalar f.target_field ("") := by
  unfold applyField
  simp [h]

theorem applyField_mapped (m : Mapping) (src : SourceTable) (df : DataFrame)
    (f : FieldSpec) (h : mapLookup m f.target_field ≠ UNMAPPED) :
    applyField m src df f
      = df.setSeries f.target_field (src.getCol (mapLookup m f.target_field)) := by
  unfold applyField
  simp [h]

theorem setScalar_getCol (df : DataFrame) (n : String) (s : String) (t : String) :
    (df.setScalar n s).getCol t
      = if t = n then List.replicate df.nrows (some s) else df.getCol t :=
  lookupCol_setEntry df.cols n (List.replicate df.nrows (some s)) t

theorem applyField_nrows_cases (m : Mapping) (src : SourceTable) (df : DataFrame)
    (f : FieldSpec) (hw : src.wellformed)
    (h : df.nrows = 0 ∨ df.nrows = src.nrows) :
    (applyField m src df f).nrows = 0 ∨ (applyField m src df f).nrows = src.nrows := by
  by_cases hm : mapLookup m f.target_field = UNMAPPED
  · rw [applyField_unmapped m src df f hm]
    exact h
  · rw [applyField_mapped m src df f hm]
    unfold DataFrame.setSeries
    split
    · next hadopt =>
      rcases getCol_length_cases src hw (mapLookup m f.target_field) with h0 | hR
      · exact absurd h0 hadopt.2
      · exact Or.inr hR
    · next _ => exact h

theorem applyField_preserve (m : Mapping) (src : SourceTable) (df : DataFrame)
    (f : FieldSpec) (hw : src.wellformed) (hnr : df.nrows = src.nrows)
    (t : String) (ht : t ≠ f.target_field) :
    (applyField m src df f).getCol t = df.getCol t
    ∧ (applyField m src df f).nrows = df.nrows := by
  by_cases hm : mapLookup m f.target_field = UNMAPPED
  · rw [applyField_unmapped m src df f hm]
    exact ⟨by rw [setScalar_getCol, if_neg ht], rfl⟩
  · rw [applyField_mapped m src df f hm]
    unfold DataFrame.setSeries
    split
    · next hadopt =>
      exfalso
      rcases getCol_length_cases src hw (mapLookup m f.target_field) with h0 | hR
      · exact hadopt.2 h0
      · exact hadopt.2 (by rw [hR, ← hnr, hadopt.1])
    · next _ =>
      refine ⟨?_, rfl⟩
      show lookupCol (setEntry df.cols f.target_field _) t = df.getCol t
      rw [lookupCol_setEntry, if_neg ht]
      rfl

theorem applyField_set_mapped (m : Mapping) (src : SourceTable) (df : DataFrame)
    (f : FieldSpec) (hw : src.wellformed)
    (hm : mapLookup m f.target_field ≠ UNMAPPED)
    (hcol : mapLookup m f.target_field ∈ src.colNames)
    (hnr : df.nrows = 0 ∨ df.nrows = src.nrows) :
    (applyField m src df f).getCol f.target_field
      = src.getCol (mapLookup m f.target_field)
    ∧ (applyField m src df f).nrows = src.nrows := by
  have hlen : (src.getCol (mapLookup m f.target_field)).length = src.nrows :=
    getCol_length_of_mem src hw _ hcol
  rw [applyField_mapped m src df f hm]
  unfold DataFrame.setSeries
  split
  · next hadopt =>
    constructor
    · show lookupCol (setEntry _ f.target_field _) f.target_field = _
      rw [lookupCol_setEntry, if_pos rfl]
    · exact hlen
  · next hnadopt =>
    have hlen0 : df.nrows = src.nrows := by
      rcases hnr with h0 | hR
      · by_cases hv : (src.getCol (mapLookup m f.target_field)).length = 0
        · rw [h0, ← hlen, hv]
        · exact absurd ⟨h0, hv⟩ hnadopt
      · exact hR
    constructor
    · show lookupCol (setEntry df.cols f.target_field _) f.target_field = _
      rw [lookupCol_setEntry, if_pos rfl]
      unfold alignTo
      rw [hlen0, ← hlen, List.take_length, Nat.sub_self, List.replicate_zero,
        List.append_nil]
    · exact hlen0

theorem foldl_applyField_preserve (rest : List FieldSpec) (m : Mapping)
    (src : SourceTable) (df : DataFrame) (hw : src.wellformed)
    (hnr : df.nrows = src.nrows) (t : String)
    (ht : ∀ g ∈ rest, g.target_field ≠ t) :
    (rest.foldl (applyField m src) df).getCol t = df.getCol t
    ∧ (rest.foldl (applyField m src) df).nrows = df.nrows := by
  induction rest generalizing df with
  | nil => exact ⟨rfl, rfl⟩
  | cons g rest ih =>
    rw [List.foldl_cons]
    have hg := applyField_preserve m src df g hw hnr t
      (Ne.symm (ht g (List.mem_cons_self g rest)))
    obtain ⟨h1, h2⟩ := ih (applyField m src df g) (hg.2.trans hnr)
      (fun g' hg' => ht g' (List.mem_cons_of_mem g hg'))
    exact ⟨h1.trans hg.1, h2.trans hg.2⟩

theorem df_transformed_go_getCol (fields : List FieldSpec) (m : Mapping)
    (src : SourceTable) (df : DataFrame) (f : FieldSpec) (hw : src.wellformed)
    (hnodup : (fields.map (fun f => f.target_field)).Nodup)
    (hnr : df.nrows = 0 ∨ df.nrows = src.nrows)
    (hf : f ∈ fields) (hm : mapLookup m f.target_field ≠ UNMAPPED)
    (hcol : mapLookup m f.target_field ∈ src.colNames) :
    (fields.foldl (applyField m src) df).getCol f.target_field
      = src.getCol (mapLookup m f.target_field) := by
  induction fields generalizing df with
  | nil => cases hf
  | cons g rest ih =>
    rw [List.map_cons, List.nodup_cons] at hnodup
    rw [List.foldl_cons]
    rcases List.mem_cons.mp hf with rfl | hf'
    · have hset := applyField_set_mapped m src df f hw hm hcol hnr
      have hnotin : ∀ g' ∈ rest, g'.target_field ≠ f.target_field := by
        intro g' hg' heq
        exact hnodup.1 (List.mem_map.mpr ⟨g', hg', heq⟩)
      have hpres := foldl_applyField_preserve rest m src _ hw hset.2
        f.target_field hnotin
      exact hpres.1.trans hset.1
    · exact ih (applyField m src df g) hnodup.2
        (applyField_nrows_cases m src df g hw hnr) hf'

theorem applyField_colNames (m : Mapping) (src : SourceTable) (df : DataFrame)
    (f : FieldSpec) (h : f.target_field ∉ df.colNames) :
    (applyField m src df f).colNames = df.colNames ++ [f.target_field] := by
  by_cases hm : mapLookup m f.target_field = UNMAPPED
  · rw [applyField_unmapped m src df f hm]
    exact updateEntry_fst_of_not_mem df.cols f.target_field _ h
  · rw [applyField_mapped m src df f hm]
    unfold DataFrame.setSeries
    split
    · next _ =>
      show (updateEntry (df.cols.map _) f.target_field _).map _ = _
      rw [updateEntry_fst_of_not_mem _ f.target_field _
        (by rw [List.map_map]; exact h)]
      rw [List.map_map]
      rfl
    · next _ =>
      exact updateEntry_fst_of_not_mem df.cols f.target_field _ h

theorem df_transformed_go_colNames (fields : List FieldSpec) (m : Mapping)
    (src : SourceTable) (df : DataFrame)
    (h : (df.colNames ++ fields.map (fun f => f.target_field)).Nodup) :
    (fields.foldl (applyField m src) df).colNames
      = df.colNames ++ fields.map (fun f => f.target_field) := by
  induction fields generalizing df with
  | nil => simp
  | cons f rest ih =>
    rw [List.foldl_cons, List.map_cons]
    have hnotmem : f.target_field ∉ df.colNames := by
      intro hmem
      exact List.disjoint_of_nodup_append h hmem (List.mem_cons_self _ _)
    have hstep := applyField_colNames m src df f hnotmem
    have h' : ((applyField m src df f).colNames
        ++ rest.map (fun f => f.target_field)).Nodup := by
      rw [hstep, List.append_assoc, List.singleton_append]
      exact h
    rw [ih _ h', hstep, List.append_assoc, List.singleton_append]

/-! Section: Consequences of a required field left unmapped -/

theorem reqError_mem_of_unmapped (fields : List FieldSpec) (m : Mapping)
    (f : FieldSpec) (hf : f ∈ fields) (hreq : f.required = true)
    (hunm : mapLookup m f.target_field = UNMAPPED) :
    reqError f.target_field ∈ validation_errors fields m := by
  rw [validation_errors_eq]
  refine List.mem_map.mpr ⟨f, ?_, rfl⟩
  rw [List.mem_filter]
  refine ⟨?_, by simp [hunm]⟩
  unfold required_fields
  rw [List.mem_filter]
  exact ⟨hf, by simp [hreq]⟩

theorem exportStep_eq_none_of_errors (fields : List FieldSpec) (m : Mapping)
    (src : SourceTable) (h : validation_errors fields m ≠ []) :
    exportStep fields m src = none := by
  unfold exportStep
  rw [if_neg]
  intro hvalid
  exact h ((mapping_valid_iff fields m).mp hvalid)

/-! Section: The claims -/

/-- C2: validation contributes one error per required field whose mapping
value is the `UNMAPPED` sentinel and one warning per optional field whose
mapping value is the sentinel, and the mapping is valid exactly when the
error list is empty — warnings over optional fields play no role in
validity. -/
theorem C2_validation_shape (fields : List FieldSpec) (m : Mapping) :
    validation_errors fields m
        = ((required_fields fields).filter
              (fun f => mapLookup m f.target_field = UNMAPPED)).map
            (fun f => reqError f.target_field)
    ∧ validation_warnings fields m
        = ((optional_fields fields).filter
              (fun f => mapLookup m f.target_field = UNMAPPED)).map
            (fun f => optWarning f.target_field)
    ∧ (mapping_valid fields m = true ↔ validation_errors fields m = []) :=
  ⟨validation_errors_eq fields m, validation_warnings_eq fields m,
    mapping_valid_iff fields m⟩

/-- C3: whenever some required field's mapping value is the sentinel,
validation fails and the export section is never reached: no output
table is produced. -/
theorem C3_export_blocked (fields : List FieldSpec) (m : Mapping) (src : SourceTable)
    (f : FieldSpec) (hf : f ∈ fields) (hreq : f.required = true)
    (hunm : mapLookup m f.target_field = UNMAPPED) :
    exportStep fields m src = none := by
  apply exportStep_eq_none_of_errors
  intro hnil
  have := reqError_mem_of_unmapped fields m f hf hreq hunm
  rw [hnil] at this
  cases this

/-- Witness for C3: one required field, unmapped, over a one-row table. -/
theorem C3_export_blocked_witness :
    exportStep [⟨"name", "string", true, "", []⟩] [("name", UNMAPPED)]
      ⟨[("c1", [some ("x")])], 1⟩ = none :=
  C3_export_blocked _ _ _ ⟨"name", "string", true, "", []⟩
    (List.mem_singleton.mpr rfl) rfl (by decide)

/-- C7: for a fixed set of user selections, building the mapping with the
required partition first or the optional partition first produces
extensionally the same mapping, hence identical validation errors,
warnings and validity — the partition is presentation-only. -/
theorem C7_partition_order_irrelevant (fields : List FieldSpec) (sel : String → String) :
    (∀ t, mapLookup (mappings fields sel) t
        = mapLookup (build_mappings (optional_fields fields ++ required_fields fields) sel) t)
    ∧ validation_errors fields (mappings fields sel)
        = validation_errors fields
            (build_mappings (optional_fields fields ++ required_fields fields) sel)
    ∧ validation_warnings fields (mappings fields sel)
        = validation_warnings fields
            (build_mappings (optional_fields fields ++ required_fields fields) sel)
    ∧ mapping_valid fields (mappings fields sel)
        = mapping_valid fields
            (build_mappings (optional_fields fields ++ required_fields fields) sel) := by
  have hlk : ∀ t, mapLookup (mappings fields sel) t
      = mapLookup (build_mappings (optional_fields fields ++ required_fields fields) sel) t := by
    intro t
    unfold mappings
    rw [mapLookup_build_mappings, mapLookup_build_mappings]
    by_cases h : t ∈ (required_fields fields
        ++ optional_fields fields).map (fun f => f.target_field)
    · rw [if_pos h, if_pos ?_]
      simp only [List.map_append, List.mem_append] at h ⊢
      exact h.symm
    · rw [if_neg h, if_neg ?_]
      simp only [List.map_append, List.mem_append] at h ⊢
      exact fun hc => h hc.symm
  have herr : validation_errors fields (mappings fields sel)
      = validation_errors fields
          (build_mappings (optional_fields fields ++ required_fields fields) sel) := by
    rw [validation_errors_eq, validation_errors_eq]
    congr 1
    apply List.filter_congr
    intro f _
    rw [hlk f.target_field]
  refine ⟨hlk, herr, ?_, ?_⟩
  · rw [validation_warnings_eq, validation_warnings_eq]
    congr 1
    apply List.filter_congr
    intro f _
    rw [hlk f.target_field]
  · unfold mapping_valid
    rw [herr]

/-- C8: assigning a real source column to a previously-unmapped required
field, all else fixed, only removes validation errors (the new error
list is a sublist of the old) and never invalidates a valid mapping. -/
theorem C8_validity_monotone (fields : List FieldSpec) (m : Mapping) (t c : String)
    (hfield : ∃ f ∈ fields, f.required = true ∧ f.target_field = t)
    (hprev : mapLookup m t = UNMAPPED) (hc : c ≠ UNMAPPED) :
    (validation_errors fields (dictInsert m t c)).Sublist (validation_errors fields m)
    ∧ (mapping_valid fields m = true →
        mapping_valid fields (dictInsert m t c) = true) := by
  have hsub : (validation_errors fields (dictInsert m t c)).Sublist
      (validation_errors fields m) := by
    rw [validation_errors_eq, validation_errors_eq]
    apply List.Sublist.map
    apply List.monotone_filter_right
    intro f hf
    simp only [decide_eq_true_eq] at hf ⊢
    rw [mapLookup_dictInsert] at hf
    by_cases hft : f.target_field = t
    · rw [if_pos hft] at hf
      exact absurd hf hc
    · rw [if_neg hft] at hf
      exact hf
  refine ⟨hsub, fun hv => ?_⟩
  rw [mapping_valid_iff] at hv ⊢
  have hs := hsub
  rw [hv] at hs
  exact List.sublist_nil.mp hs

/-- Witness for C8: one unmapped required field becomes mapped. -/
theorem C8_validity_monotone_witness :
    (validation_errors [⟨"name", "string", true, "", []⟩]
        (dictInsert ([] : Mapping) ("name") ("c1"))).Sublist
      (validation_errors [⟨"name", "string", true, "", []⟩] ([] : Mapping))
    ∧ (mapping_valid [⟨"name", "string", true, "", []⟩] ([] : Mapping) = true →
        mapping_valid [⟨"name", "string", true, "", []⟩]
          (dictInsert ([] : Mapping) ("name") ("c1")) = true) :=
  C8_validity_monotone [⟨"name", "string", true, "", []⟩] ([] : Mapping)
    ("name") ("c1") (by decide) (by decide) (by decide)

/-- C5: the output table has one column per schema field, named by its
`target_field`, in schema declaration order — for every mapping and every
source table, hence independently of the source's column order and of
which fields are mapped. -/
theorem C5_column_order (fields : List FieldSpec) (m : Mapping) (src : SourceTable)
    (hnodup : (fields.map (fun f => f.target_field)).Nodup) :
    (df_transformed fields m src).colNames = fields.map (fun f => f.target_field) := by
  unfold df_transformed
  have h := df_transformed_go_colNames fields m src ⟨0, []⟩ (by simpa using hnodup)
  simpa using h

/-- Witness for C5: a two-field schema, one field mapped, over a one-row
table whose column order differs from the schema's. -/
theorem C5_column_order_witness :
    (df_transformed [⟨"a", "string", true, "", []⟩, ⟨"b", "string", false, "", []⟩]
        [("a", "c1")] ⟨[("z", [some ("w")]), ("c1", [some ("v")])], 1⟩).colNames
      = ["a", "b"] :=
  (C5_column_order [⟨"a", "string", true, "", []⟩, ⟨"b", "string", false, "", []⟩]
    [("a", "c1")] ⟨[("z", [some ("w")]), ("c1", [some ("v")])], 1⟩ (by decide)).trans
    (by decide)

/-- C6: every mapped field's output column is the mapped source column's
row-aligned data copied verbatim — no coercion or transformation. -/
theorem C6_verbatim_copy (fields : List FieldSpec) (m : Mapping) (src : SourceTable)
    (f : FieldSpec) (hw : src.wellformed)
    (hnodup : (fields.map (fun f => f.target_field)).Nodup)
    (hf : f ∈ fields) (hm : mapLookup m f.target_field ≠ UNMAPPED)
    (hcol : mapLookup m f.target_field ∈ src.colNames) :
    (df_transformed fields m src).getCol f.target_field
      = src.getCol (mapLookup m f.target_field) :=
  df_transformed_go_getCol fields m src ⟨0, []⟩ f hw hnodup (Or.inl rfl) hf hm hcol

/-- Witness for C6: a mapped field over a two-row table. -/
theorem C6_verbatim_copy_witness :
    (df_transformed [⟨"a", "string", true, "", []⟩] [("a", "c1")]
        ⟨[("c1", [some ("x"), some ("y")])], 2⟩).getCol ("a")
      = [some ("x"), some ("y")] :=
  (C6_verbatim_copy [⟨"a", "string", true, "", []⟩] [("a", "c1")]
    ⟨[("c1", [some ("x"), some ("y")])], 2⟩ ⟨"a", "string", true, "", []⟩
    (by decide) (by decide) (by decide) (by decide) (by decide)).trans (by decide)

/-- C10: a source column literally named `"-- Sin mapear --"` makes any
field mapped to it indistinguishable from an unmapped field: if the field
is required, validation errors out and no export happens; at the export
step the field's column receives the empty-string fill of an unmapped
field, never that source column's data. -/
theorem C10_sentinel_column_collision (src : SourceTable) (d : List Cell)
    (fields : List FieldSpec) (m : Mapping) (t : FieldSpec) (df : DataFrame)
    (hcol : (UNMAPPED, d) ∈ src.columns)
    (hsel : mapLookup m t.target_field = UNMAPPED) :
    ((t ∈ fields ∧ t.required = true) →
      (reqError t.target_field ∈ validation_errors fields m
        ∧ exportStep fields m src = none))
    ∧ (applyField m src df t).getCol t.target_field
        = List.replicate df.nrows (some (""))
    ∧ (d ≠ List.replicate df.nrows (some ("")) →
        (applyField m src df t).getCol t.target_field ≠ d) := by
  have hfill : (applyField m src df t).getCol t.target_field
      = List.replicate df.nrows (some ("")) := by
    rw [applyField_unmapped m src df t hsel, setScalar_getCol, if_pos rfl]
  refine ⟨fun ⟨hmem, hreq⟩ => ?_, hfill, fun hne heq => hne (heq ▸ hfill ▸ rfl)⟩
  have herr := reqError_mem_of_unmapped fields m t hmem hreq hsel
  refine ⟨herr, exportStep_eq_none_of_errors fields m src ?_⟩
  intro hnil
  rw [hnil] at herr
  cases herr

/-- Witness for C10: a one-row table whose only column is named exactly
like the sentinel, carrying data distinct from the empty-string fill. -/
theorem C10_sentinel_column_collision_witness :
    ((⟨"id", "string", true, "", []⟩ ∈ [(⟨"id", "string", true, "", []⟩ : FieldSpec)]
        ∧ (⟨"id", "string", true, "", []⟩ : FieldSpec).required = true) →
      (reqError (FieldSpec.target_field ⟨"id", "string", true, "", []⟩)
          ∈ validation_errors [(⟨"id", "string", true, "", []⟩ : FieldSpec)]
            [("id", UNMAPPED)]
        ∧ exportStep [(⟨"id", "string", true, "", []⟩ : FieldSpec)] [("id", UNMAPPED)]
            ⟨[(UNMAPPED, [some ("secret")])], 1⟩ = none))
    ∧ (applyField [("id", UNMAPPED)] ⟨[(UNMAPPED, [some ("secret")])], 1⟩
          ⟨1, []⟩ ⟨"id", "string", true, "", []⟩).getCol
        (FieldSpec.target_field ⟨"id", "string", true, "", []⟩)
        = List.replicate (DataFrame.nrows ⟨1, []⟩) (some (""))
    ∧ ([some ("secret")] ≠ List.replicate (DataFrame.nrows ⟨1, []⟩) (some ("")) →
        (applyField [("id", UNMAPPED)] ⟨[(UNMAPPED, [some ("secret")])], 1⟩
            ⟨1, []⟩ ⟨"id", "string", true, "", []⟩).getCol
          (FieldSpec.target_field ⟨"id", "string", true, "", []⟩)
          ≠ [some ("secret")]) :=
  C10_sentinel_column_collision ⟨[(UNMAPPED, [some ("secret")])], 1⟩
    [some ("secret")] [(⟨"id", "string", true, "", []⟩ : FieldSpec)]
    [("id", UNMAPPED)] ⟨"id", "string", true, "", []⟩ ⟨1, []⟩
    (by decide) (by decide)

/-- C1 at its failing input: a schema holding a single optional field,
left unmapped, over a one-row source table.  The mapping is valid and
export proceeds, but the produced table has 0 rows instead of the
source's 1: every column assignment was a scalar broadcast over
`pd.DataFrame()`'s empty index, so the index never grew. -/
theorem C1_row_count_failing_input :
    mapping_valid [⟨"notes", "string", false, "", []⟩] [("notes", UNMAPPED)] = true
    ∧ exportStep [⟨"notes", "string", false, "", []⟩] [("notes", UNMAPPED)]
        ⟨[("c1", [some ("x")])], 1⟩
      = some (df_transformed [⟨"notes", "string", false, "", []⟩] [("notes", UNMAPPED)]
          ⟨[("c1", [some ("x")])], 1⟩)
    ∧ (df_transformed [⟨"notes", "string", false, "", []⟩] [("notes", UNMAPPED)]
        ⟨[("c1", [some ("x")])], 1⟩).nrows = 0
    ∧ (⟨[("c1", [some ("x")])], 1⟩ : SourceTable).nrows = 1 := by
  decide

/-- C4 at its failing input: an unmapped optional field that precedes the
first mapped field in schema order.  When the mapped field's Series
assignment makes the empty frame adopt the source's index, pandas refills
the already-present unmapped column with NaN, not the empty string. -/
theorem C4_empty_fill_failing_input :
    mapping_valid
        [⟨"notes", "string", false, "", []⟩, ⟨"name", "string", true, "", []⟩]
        [("notes", UNMAPPED), ("name", "c1")] = true
    ∧ (df_transformed
          [⟨"notes", "string", false, "", []⟩, ⟨"name", "string", true, "", []⟩]
          [("notes", UNMAPPED), ("name", "c1")]
          ⟨[("c1", [some ("Ana")])], 1⟩).getCol ("notes") = [(none : Cell)]
    ∧ (df_transformed
          [⟨"notes", "string", false, "", []⟩, ⟨"name", "string", true, "", []⟩]
          [("notes", UNMAPPED), ("name", "c1")]
          ⟨[("c1", [some ("Ana")])], 1⟩).getCol ("notes") ≠ [some ("")] := by
  decide

/-- C9: a malformed schema file is fatal only for its own load: the
directory listing of the run that selects it is still fully rendered, its
load crashes only that run, and a run selecting a well-formed file of the
same directory lists and loads it untouched. -/
theorem C9_parse_error_isolated (files : List SchemaFile) (bad good : SchemaFile)
    (s : Schema)
    (hbadfind : files.find? (fun f => f.name = bad.name) = some bad)
    (hbad : bad.parsed = none)
    (hgoodfind : files.find? (fun f => f.name = good.name) = some good)
    (hgood : good.parsed = some s)
    (hbadname : bad.name ≠ placeholderOption)
    (hgoodname : good.name ≠ placeholderOption) :
    (schemaSection files bad.name).listed = schema_names files
    ∧ (schemaSection files bad.name).crashed = true
    ∧ (schemaSection files bad.name).loaded = none
    ∧ (schemaSection files good.name).listed = schema_names files
    ∧ (schemaSection files good.name).loaded = some s
    ∧ (schemaSection files good.name).crashed = false := by
  unfold schemaSection
  rw [if_neg hbadname, if_neg hgoodname, hbadfind, hgoodfind]
  simp [hbad, hgood]

/-- Witness for C9: a directory with one malformed and one well-formed
schema file. -/
theorem C9_parse_error_isolated_witness :
    (schemaSection [⟨"bad.json", none⟩, ⟨"good.json", some ⟨"Good", []⟩⟩]
        ("bad.json")).listed
      = schema_names [⟨"bad.json", none⟩, ⟨"good.json", some ⟨"Good", []⟩⟩]
    ∧ (schemaSection [⟨"bad.json", none⟩, ⟨"good.json", some ⟨"Good", []⟩⟩]
        ("bad.json")).crashed = true
    ∧ (schemaSection [⟨"bad.json", none⟩, ⟨"good.json", some ⟨"Good", []⟩⟩]
        ("bad.json")).loaded = none
    ∧ (schemaSection [⟨"bad.json", none⟩, ⟨"good.json", some ⟨"Good", []⟩⟩]
        ("good.json")).listed
      = schema_names [⟨"bad.json", none⟩, ⟨"good.json", some ⟨"Good", []⟩⟩]
    ∧ (schemaSection [⟨"bad.json", none⟩, ⟨"good.json", some ⟨"Good", []⟩⟩]
        ("good.json")).loaded = some ⟨"Good", []⟩
    ∧ (schemaSection [⟨"bad.json", none⟩, ⟨"good.json", some ⟨"Good", []⟩⟩]
        ("good.json")).crashed = false :=
  C9_parse_error_isolated [⟨"bad.json", none⟩, ⟨"good.json", some ⟨"Good", []⟩⟩]
    ⟨"bad.json", none⟩ ⟨"good.json", some ⟨"Good", []⟩⟩ ⟨"Good", []⟩
    (by decide) (by decide) (by decide) (by decide) (by decide) (by decide)

end DataMapping
